import Mathlib

/-
Verification development for the TaPy grating-interferometer pipeline
(`tapy/grating_interferometer.py`).

The stateful correction pipeline (load / normalization / df_correction /
crop / oscillation / binning) is embedded over exact rationals: a frame is a
list of rows of rationals, a pipeline state is a record of the three role
dictionaries plus the exec-status flags, and every stage is a function
`GI -> GI × Except Err Unit` mirroring the Python control flow statement by
statement (in particular the *order* of flag mutation, validation and data
mutation is preserved).  The harmonic reduction and the interferometry
derivation, which are floating-point linear algebra in the source, are
embedded over the reals, with IEEE non-finite values (inf / NaN) modelled by
`Option ℝ` (`none` = non-finite).
-/

namespace TaPy

/-- A 2-D image frame: a list of rows of rational pixel values. -/
abbrev Frame := List (List ℚ)

/-- The `{width, height}` shape dictionary once it has been set.
The NaN-initialised (unset) state is modelled as `Option Shape = none`. -/
structure Shape where
  width : ℕ
  height : ℕ
deriving DecidableEq

/-- The ROI value object from `tapy.roi`: four integer bounds, inclusive. -/
structure ROI where
  x0 : ℤ
  y0 : ℤ
  x1 : ℤ
  y1 : ℤ

/-- One role dictionary (`dict_image` / `dict_ob` / `dict_df`): frame list,
file-name list, shape record; `oscillation` is used by sample/ob,
`data_average` by df only (the others keep it at `none`). -/
structure RoleDict where
  data : List Frame
  file_name : List String
  shape : Option Shape
  oscillation : List ℚ
  data_average : Option Frame

/-- The `__exec_process_status` dictionary of run flags. -/
structure ExecStatus where
  df_correction : Bool
  normalization : Bool
  crop : Bool
  oscillation : Bool
  bin : Bool

/-- The pipeline state: `self.data['sample'|'ob'|'df']` plus the run flags. -/
structure GI where
  sample : RoleDict
  ob : RoleDict
  df : RoleDict
  status : ExecStatus

/-- The `data_type` argument selecting one of the three role dictionaries. -/
inductive Role where
  | sample
  | ob
  | df
deriving DecidableEq

/-- Logical error taxonomy (spec §7) for the exceptions the source raises.
`RuntimeCrash` stands for the untyped numpy/Python failures that escape a
stage's own argument validation (the `ZeroDivisionError` / reshape
`ValueError` that `__binning_data` hits for a non-positive bin). -/
inductive Err where
  | OperationNotAllowed
  | ShapeMismatch
  | CountMismatch
  | MissingData
  | InvalidROI
  | InvalidArgument
  | RuntimeCrash
deriving DecidableEq

/-- `self.data[data_type]`. -/
def getRole (gi : GI) (r : Role) : RoleDict :=
  match r with
  | .sample => gi.sample
  | .ob => gi.ob
  | .df => gi.df

/-- Assignment `self.data[data_type] = d`. -/
def setRole (gi : GI) (r : Role) (d : RoleDict) : GI :=
  match r with
  | .sample => { gi with sample := d }
  | .ob => { gi with ob := d }
  | .df => { gi with df := d }

/-- `np.shape(data)` of a 2-D frame, as `(height, width)`. -/
def frameShape (f : Frame) : ℕ × ℕ :=
  (f.length, (f.headD []).length)

/-- Python slice-bound normalisation for `l[lo:hi]`: a negative index counts
from the end, and bounds are clamped into `[0, len]`. -/
def sliceBound (n : ℕ) (i : ℤ) : ℕ :=
  if i < 0 then (i + n).toNat else min i.toNat n

/-- Python list slice `l[lo:hi]` (hi exclusive), with numpy clamping. -/
def pySlice {α : Type} (lo hi : ℤ) (l : List α) : List α :=
  (l.take (sliceBound l.length hi)).drop (sliceBound l.length lo)

/-- The 2-D slice `frame[y0:y1+1, x0:x1+1]` used by normalization, crop and
oscillation. -/
def cropFrame (r : ROI) (f : Frame) : Frame :=
  (pySlice r.y0 (r.y1 + 1) f).map (fun row => pySlice r.x0 (r.x1 + 1) row)

/-- `np.mean` of a 2-D frame: sum of all pixels over their count. -/
def frameMean (f : Frame) : ℚ :=
  ((f.map List.sum).sum) / (((f.map List.length).sum : ℕ) : ℚ)

/-- Element-wise `frame / m`. -/
def frameDiv (f : Frame) (m : ℚ) : Frame :=
  f.map (fun row => row.map (fun x => x / m))

/-- Element-wise `frame - frame`. -/
def frameSub (f g : Frame) : Frame :=
  List.zipWith (fun r1 r2 => List.zipWith (fun a b => a - b) r1 r2) f g

/-- Element-wise `frame + frame`. -/
def frameAdd (f g : Frame) : Frame :=
  List.zipWith (fun r1 r2 => List.zipWith (fun a b => a + b) r1 r2) f g

/-- Modelled from the spec: `average_df` lives in `tapy._utilities`, which is
not under src/.  Spec §4.2: the averaged dark-field frame is the element-wise
mean over the df frames. -/
def average_df (dfs : List Frame) : Frame :=
  match dfs with
  | [] => []
  | f :: rest =>
      (rest.foldl frameAdd f).map
        (fun row => row.map (fun x => x / ((rest.length + 1 : ℕ) : ℚ)))

/-- `save_or_check_shape` (lines 120-138): record the shape of the first
frame loaded for a role, else raise `IOError` (ShapeMismatch) when the new
frame's height or width differs from the stored one. -/
def save_or_check_shape (gi : GI) (data : Frame) (data_type : Role) :
    GI × Except Err Unit :=
  let d := getRole gi data_type
  match d.shape with
  | none =>
      (setRole gi data_type
        { d with shape := some ⟨(frameShape data).2, (frameShape data).1⟩ },
       .ok ())
  | some s =>
      if s.width = (frameShape data).2 ∧ s.height = (frameShape data).1 then
        (gi, .ok ())
      else
        (gi, .error .ShapeMismatch)

/-- `load_file` (lines 85-118), for a file that exists and decodes to `data`
(the FITS/TIFF/HDF loaders are external collaborators).  Note the source
appends the frame and its name *before* calling `save_or_check_shape`. -/
def load_file (gi : GI) (file : String) (data : Frame) (data_type : Role) :
    GI × Except Err Unit :=
  let d := getRole gi data_type
  let gi1 := setRole gi data_type
    { d with data := d.data ++ [data], file_name := d.file_name ++ [file] }
  save_or_check_shape gi1 data data_type

/-- `load` (lines 57-83), single-file branch (the folder branch is a fold of
`load_file` over a directory listing, an external collaborator): refuse with
`IOError` (OperationNotAllowed) when any exec flag is already set. -/
def load (gi : GI) (file : String) (data : Frame) (data_type : Role) :
    GI × Except Err Unit :=
  if gi.status.df_correction = true ∨ gi.status.normalization = true ∨
     gi.status.crop = true ∨ gi.status.oscillation = true ∨
     gi.status.bin = true then
    (gi, .error .OperationNotAllowed)
  else
    load_file gi file data data_type

/-- Python `dict ==` on the two shape dictionaries: any NaN entry (unset
shape, modelled `none`) compares unequal, even to itself. -/
def shapesEqualPy : Option Shape → Option Shape → Bool
  | some a, some b => (a.width == b.width) && (a.height == b.height)
  | _, _ => false

/-- `data_loaded_have_matching_shape` (lines 212-230). -/
def data_loaded_have_matching_shape (gi : GI) : Bool :=
  if !(shapesEqualPy gi.sample.shape gi.ob.shape) then
    false
  else
    match gi.df.shape with
    | some s =>
        if !(shapesEqualPy gi.sample.shape (some s)) then false else true
    | none => true

/-- `__roi_fit_into_sample` (lines 232-249): bounds check of an ROI against
the first sample frame (no `x0 ≤ x1` check in the source). -/
def roi_fit_into_sample (gi : GI) (roi : ROI) : Bool :=
  let hw := frameShape (gi.sample.data.headD [])
  if roi.x0 < 0 ∨ roi.x1 ≥ (hw.2 : ℤ) then false
  else if roi.y0 < 0 ∨ roi.y1 ≥ (hw.1 : ℤ) then false
  else true

/-- `normalization` (lines 140-210).  Statement order as in the source:
skip-check, set the run flag, then validate, then compute.  With an ROI
each frame is divided by the mean of its own ROI slice; with no ROI the
source's else-branch assigns `copy.copy` of the existing lists, i.e. the
frames are left unchanged.  (Python returns `True` on success and `None`
on skip; both are modelled `.ok ()`.) -/
def normalization (gi : GI) (roi : Option ROI) (force : Bool) :
    GI × Except Err Unit :=
  if force = false ∧ gi.status.normalization = true then
    (gi, .ok ())
  else
    let gi1 : GI := { gi with status := { gi.status with normalization := true } }
    if gi1.sample.data = [] then (gi1, .error .MissingData)
    else if gi1.ob.data = [] then (gi1, .error .MissingData)
    else if gi1.sample.file_name.length ≠ gi1.ob.file_name.length then
      (gi1, .error .CountMismatch)
    else if data_loaded_have_matching_shape gi1 = false then
      (gi1, .error .ShapeMismatch)
    else
      match roi with
      | some r =>
          if roi_fit_into_sample gi1 r = false then
            (gi1, .error .InvalidROI)
          else
            let newSample :=
              gi1.sample.data.map (fun f => frameDiv f (frameMean (cropFrame r f)))
            let newOb :=
              gi1.ob.data.map (fun f => frameDiv f (frameMean (cropFrame r f)))
            ({ gi1 with sample := { gi1.sample with data := newSample },
                        ob := { gi1.ob with data := newOb } }, .ok ())
      | none =>
          ({ gi1 with sample := { gi1.sample with data := gi1.sample.data },
                      ob := { gi1.ob with data := gi1.ob.data } }, .ok ())

/-- Lines 286-292 of `__df_correction`: on first use compute the df average
(`average_df` when more than one frame, else the lone frame) and cache it in
`data_average`; afterwards reuse the cache. -/
def df_average_cached (gi : GI) : GI × Frame :=
  match gi.df.data_average with
  | none =>
      let a := if gi.df.data.length > 1 then average_df gi.df.data
               else gi.df.data.headD []
      ({ gi with df := { gi.df with data_average := some a } }, a)
  | some a => (gi, a)

/-- `__df_correction` (lines 274-298): no-op when df is empty; otherwise
compute and cache the df average on first use, check the first frames'
shapes, and subtract the averaged frame from every frame of the role.
(`average_df` is spec-modelled; with a single df frame the source keeps the
one-element list, which numpy broadcasting then subtracts — modelled, per
spec §4.2 "else the lone frame", as subtracting that frame.) -/
def __df_correction (gi : GI) (data_type : Role) : GI × Except Err Unit :=
  if ¬(data_type = Role.sample ∨ data_type = Role.ob) then
    (gi, .error .InvalidArgument)
  else if gi.df.data = [] then
    (gi, .ok ())
  else
    let gi1 := (df_average_cached gi).1
    let dfFrame := (df_average_cached gi).2
    if frameShape ((getRole gi1 data_type).data.headD []) ≠
       frameShape (gi1.df.data.headD []) then
      (gi1, .error .ShapeMismatch)
    else
      let newData := (getRole gi1 data_type).data.map (fun f => frameSub f dfFrame)
      (setRole gi1 data_type { (getRole gi1 data_type) with data := newData }, .ok ())

/-- The second half of `df_correction` (lines 271-272): if the sample pass
raised, the exception propagates and the ob pass never runs; otherwise run
`__df_correction` on ob when ob data is loaded. -/
def df_correction_second (p : GI × Except Err Unit) : GI × Except Err Unit :=
  match p with
  | (gi2, .error e) => (gi2, .error e)
  | (gi2, .ok _) =>
      if gi2.ob.data ≠ [] then __df_correction gi2 .ob else (gi2, .ok ())

/-- `df_correction` (lines 251-272): skip-check, set the run flag, then run
`__df_correction` on sample (if loaded) and then on ob (if loaded). -/
def df_correction (gi : GI) (force : Bool) : GI × Except Err Unit :=
  if force = false ∧ gi.status.df_correction = true then
    (gi, .ok ())
  else
    let gi1 : GI := { gi with status := { gi.status with df_correction := true } }
    df_correction_second
      (if gi1.sample.data ≠ [] then __df_correction gi1 .sample else (gi1, .ok ()))

/-- `crop` (lines 300-338): missing-data check, ROI type check (`roi = none`
models a non-ROI argument), skip-check, set the run flag, slice every sample
frame and then every ob frame.  The source never checks that the ROI fits
inside the frames; numpy slicing silently clamps. -/
def crop (gi : GI) (roi : Option ROI) (force : Bool) : GI × Except Err Unit :=
  if gi.sample.data = [] ∨ gi.ob.data = [] then
    (gi, .error .MissingData)
  else
    match roi with
    | none => (gi, .error .InvalidROI)
    | some r =>
        if force = false ∧ gi.status.crop = true then
          (gi, .ok ())
        else
          let gi1 : GI := { gi with status := { gi.status with crop := true } }
          let newSample := gi1.sample.data.map (cropFrame r)
          let gi2 : GI := { gi1 with sample := { gi1.sample with data := newSample } }
          let newOb := gi2.ob.data.map (cropFrame r)
          ({ gi2 with ob := { gi2.ob with data := newOb } }, .ok ())

/-- `oscillation` (lines 340-407, `plot=False` path): store the per-frame
ROI (or whole-frame) means for sample and ob.  The source never writes any
entry of `__exec_process_status` here. -/
def oscillation (gi : GI) (roi : Option ROI) : GI :=
  let stack_sample_mean :=
    match roi with
    | some r => gi.sample.data.map (fun f => frameMean (cropFrame r f))
    | none => gi.sample.data.map frameMean
  let stack_ob_mean :=
    match roi with
    | some r => gi.ob.data.map (fun f => frameMean (cropFrame r f))
    | none => gi.ob.data.map frameMean
  { gi with sample := { gi.sample with oscillation := stack_sample_mean },
            ob := { gi.ob with oscillation := stack_ob_mean } }

/-- `np.int(bin)` / Python `int()` on a finite numeric value: truncation
toward zero. -/
def pyTrunc (q : ℚ) : ℤ :=
  if q < 0 then ⌈q⌉ else ⌊q⌋

/-- Number of elements of the clamped slice `frame[0:h, 0:w]` — the size
numpy compares against `nh·bin·nw·bin` when `__binning_data` reshapes. -/
def sliceSize (h w : ℕ) (f : Frame) : ℕ :=
  ((f.take h).map (fun row => (row.take w).length)).sum

/-- The size check `reshape(nbr_height_bin, bin, nbr_width_bin, bin)`
performs on every frame of the stack (line 466): the bin counts come from
the *first* frame, and each frame's clamped `[0:new_height, 0:new_width]`
slice must hold exactly `nh·bin·nw·bin` elements, else numpy raises
`ValueError: cannot reshape`. -/
def binShapesOk (d : List Frame) (b : ℕ) : Bool :=
  let hw := frameShape (d.headD [])
  let nh := hw.1 / b
  let nw := hw.2 / b
  d.all (fun f => sliceSize (nh * b) (nw * b) f == nh * b * (nw * b))

/-- One `b × b`-block mean rebinning of a frame (`__binning_data`'s loop
body): truncate to whole bins (`new_height × new_width`), then the
`reshape(nh, b, nw, b).mean(axis=3).mean(axis=1)` of the source, written as
the mean over each `b × b` block.  Only invoked by `__binning_data` on
frames that passed the `binShapesOk` reshape size check, so for rectangular
frames every block index is in range (the `getD` defaults never pad). -/
def binFrame (b nh nw : ℕ) (f : Frame) : Frame :=
  let truncated := (f.take (nh * b)).map (fun row => row.take (nw * b))
  (List.range nh).map (fun i =>
    (List.range nw).map (fun j =>
      (((List.range b).map (fun rr =>
          ((List.range b).map (fun c =>
            (truncated.getD (i * b + rr) []).getD (j * b + c) 0)).sum)).sum)
        / ((b * b : ℕ) : ℚ)))

/-- `__binning_data` (lines 445-469).  For a non-positive bin the source
crashes inside the computation (`ZeroDivisionError` for 0, a reshape
`ValueError` for negatives), with the role's data not yet reassigned;
likewise, when a later frame's clamped slice does not hold exactly the
first frame's `nh·bin·nw·bin` elements, `reshape` raises `ValueError`
before `data[...]['data']` is reassigned.  Both crashes are modelled as
`.error .RuntimeCrash` with the state unchanged. -/
def __binning_data (gi : GI) (data_type : Role) (bin : ℤ) : GI × Except Err Unit :=
  if bin ≤ 0 then
    (gi, .error .RuntimeCrash)
  else
    let b := bin.toNat
    let d := getRole gi data_type
    if binShapesOk d.data b = true then
      let hw := frameShape (d.data.headD [])
      let nh := hw.1 / b
      let nw := hw.2 / b
      let newData := d.data.map (fun f => binFrame b nh nw f)
      (setRole gi data_type { d with data := newData }, .ok ())
    else
      (gi, .error .RuntimeCrash)

/-- `binning` (lines 409-443).  The `bin` argument is an optional rational,
`none` modelling the `np.NaN` default; `np.int` truncation never fails on a
finite number, so the ValueError guarding it is unreachable there.  Order as
in the source: NaN check, truncation, skip-check, set the run flag,
missing-data checks, rebin sample then ob. -/
def binning (gi : GI) (bin : Option ℚ) (force : Bool) : GI × Except Err Unit :=
  match bin with
  | none => (gi, .error .InvalidArgument)
  | some q =>
      let b : ℤ := pyTrunc q
      if force = false ∧ gi.status.bin = true then
        (gi, .ok ())
      else
        let gi1 : GI := { gi with status := { gi.status with bin := true } }
        if gi1.sample.data = [] then (gi1, .error .MissingData)
        else if gi1.ob.data = [] then (gi1, .error .MissingData)
        else
          match __binning_data gi1 .sample b with
          | (gi2, .error e) => (gi2, .error e)
          | (gi2, .ok _) => __binning_data gi2 .ob b

/-! ## Harmonic reduction and interferometry derivation (real-valued part)

The source computes these with numpy floating point.  They are embedded over
`ℝ`, with the IEEE non-finite results (inf / NaN) that the source
deliberately lets propagate modelled by `Option ℝ`: `none` stands for a
non-finite value.  Division maps a zero divisor to `none` (float `x/0` is
`±inf` or `NaN`); `arctan`, `tan` and subtraction propagate `none`. -/

open Matrix

/-- Float division with the "divide by zero yields non-finite" semantics of
`np.divide` under `np.seterr(divide='ignore', invalid='ignore')`. -/
noncomputable def divN : Option ℝ → Option ℝ → Option ℝ
  | some a, some b => if b = 0 then none else some (a / b)
  | _, _ => none

/-- NaN-propagating `np.arctan`. -/
noncomputable def arctanN : Option ℝ → Option ℝ :=
  Option.map Real.arctan

/-- NaN-propagating `np.tan`. -/
noncomputable def tanN : Option ℝ → Option ℝ :=
  Option.map Real.tan

/-- NaN-propagating subtraction. -/
def subN : Option ℝ → Option ℝ → Option ℝ
  | some a, some b => some (a - b)
  | _, _ => none

/-- Modelled from the spec: `remove_inf_null` lives in `tapy._utilities`,
which is not under src/.  Spec §4.4: replace infinite / not-a-number values
with 0 before use. -/
def remove_inf_null (x : Option ℝ) : Option ℝ :=
  some (x.getD 0)

/-- The design matrix `B` of `_create_reduction_matrix` (lines 494-500):
row `i` is `{1, cos(2π·i·number_periods/(N-1)), sin(2π·i·number_periods/(N-1))}`. -/
noncomputable def reduction_B (N : ℕ) (number_periods : ℝ) :
    Matrix (Fin N) (Fin 3) ℝ :=
  fun i j =>
    ![1, Real.cos (2 * Real.pi * (i : ℝ) * number_periods / ((N : ℝ) - 1)),
         Real.sin (2 * Real.pi * (i : ℝ) * number_periods / ((N : ℝ) - 1))] j

/-- `G = (B.T * B).I * B.T` (line 503). -/
noncomputable def reduction_G (N : ℕ) (number_periods : ℝ) :
    Matrix (Fin 3) (Fin N) ℝ :=
  ((reduction_B N number_periods)ᵀ * reduction_B N number_periods)⁻¹ *
    (reduction_B N number_periods)ᵀ

/-- `np.reshape(data, [nbr_images, height * width])` (line 496): the stack
flattened to one pixel axis, the `H·W` pixels indexed by `Fin H × Fin W`. -/
def data_reshaped {N H W : ℕ} (data : Fin N → Fin H → Fin W → ℝ) :
    Matrix (Fin N) (Fin H × Fin W) ℝ :=
  fun i p => data i p.1 p.2

/-- `A = G * data_reshaped` (line 504): the 3 × (H·W) coefficient matrix. -/
noncomputable def reduction_A {N H W : ℕ} (number_periods : ℝ)
    (data : Fin N → Fin H → Fin W → ℝ) : Matrix (Fin 3) (Fin H × Fin W) ℝ :=
  reduction_G N number_periods * data_reshaped data

/-- The dictionary returned by `_create_reduction_matrix`.  `phase` can be
NaN (the source writes `np.NaN` into zero cosine coefficients), hence
`Option ℝ`; `offset` and `amplitude` are plain reals. -/
structure ReductionResult (H W : ℕ) where
  offset : Fin H → Fin W → ℝ
  amplitude : Fin H → Fin W → ℝ
  phase : Fin H → Fin W → Option ℝ

/-- `_create_reduction_matrix` (lines 471-516), step by step: retrieve the
three coefficient rows of `A`, reshape `offset`, compute `amplitude` from
the raw rows, then overwrite the zero entries of the cosine row with NaN,
and only then divide for `phase`. -/
noncomputable def _create_reduction_matrix (N H W : ℕ)
    (data : Fin N → Fin H → Fin W → ℝ) (number_periods : ℝ) :
    ReductionResult H W :=
  let A := reduction_A number_periods data
  let offset := fun h w => A 0 (h, w)
  let absolute_amplitude := fun (h : Fin H) (w : Fin W) => A 1 (h, w)
  let absolute_phase := fun (h : Fin H) (w : Fin W) => A 2 (h, w)
  let amplitude := fun h w =>
    Real.sqrt ((absolute_amplitude h w) ^ 2 + (absolute_phase h w) ^ 2)
  let absolute_amplitude1 := fun (h : Fin H) (w : Fin W) =>
    if absolute_amplitude h w = 0 then (none : Option ℝ)
    else some (absolute_amplitude h w)
  let phase := fun h w =>
    arctanN (divN (some (absolute_phase h w)) (absolute_amplitude1 h w))
  ⟨offset, amplitude, phase⟩

/-- The design matrix as the claim states it, written independently of
`reduction_B` for the refinement comparison. -/
noncomputable def claimed_B (N : ℕ) (number_periods : ℝ) :
    Matrix (Fin N) (Fin 3) ℝ :=
  fun i j =>
    if j = 0 then 1
    else if j = 1 then
      Real.cos (2 * Real.pi * (i : ℝ) * number_periods / ((N : ℝ) - 1))
    else
      Real.sin (2 * Real.pi * (i : ℝ) * number_periods / ((N : ℝ) - 1))

/-- The reduction output as the claim states it: amplitude is
`sqrt(cos_coef² + sin_coef²)`, and phase is NaN exactly where the cosine
coefficient is 0 and `arctan(sin_coef / cos_coef)` elsewhere. -/
noncomputable def claimed_reduction (N H W : ℕ)
    (data : Fin N → Fin H → Fin W → ℝ) (number_periods : ℝ) :
    ReductionResult H W :=
  { offset := fun h w => reduction_A number_periods data 0 (h, w)
    amplitude := fun h w =>
      Real.sqrt ((reduction_A number_periods data 1 (h, w)) ^ 2 +
                 (reduction_A number_periods data 2 (h, w)) ^ 2)
    phase := fun h w =>
      if reduction_A number_periods data 1 (h, w) = 0 then none
      else some (Real.arctan (reduction_A number_periods data 2 (h, w) /
                              reduction_A number_periods data 1 (h, w))) }

/-- A per-role reduction output as consumed by the derivation step; every
entry may be non-finite. -/
structure Reduction (P : Type) where
  offset : P → Option ℝ
  amplitude : P → Option ℝ
  phase : P → Option ℝ

/-- The four derived maps. -/
structure InterferometryMaps (P : Type) where
  transmission : P → Option ℝ
  diff_phase_contrast : P → Option ℝ
  dark_field : P → Option ℝ
  visibility_map : P → Option ℝ

/-- The derivation tail of `create_interferometry_images` (lines 539-560),
as a function of the two retrieved reduction outputs: clean the offsets with
`remove_inf_null`, then `transmission = s.offset / o.offset`,
`diff_phase_contrast = arctan(tan(s.phase - o.phase))`,
`dark_field = (s.amplitude/s.offset) / (o.amplitude/o.offset)` and
`visibility_map = o.amplitude / o.offset` (all with the cleaned offsets). -/
noncomputable def create_interferometry_images {P : Type}
    (s o : Reduction P) : InterferometryMaps P :=
  let s_offset := fun p => remove_inf_null (s.offset p)
  let o_offset := fun p => remove_inf_null (o.offset p)
  { transmission := fun p => divN (s_offset p) (o_offset p)
    diff_phase_contrast := fun p =>
      arctanN (tanN (subN (s.phase p) (o.phase p)))
    dark_field := fun p =>
      divN (divN (s.amplitude p) (s_offset p)) (divN (o.amplitude p) (o_offset p))
    visibility_map := fun p => divN (o.amplitude p) (o_offset p) }

/-! ## Concrete states used by the counterexamples and witnesses -/

/-- A 2×2 frame of uniform value 2. -/
def uniformFrame : Frame := [[2, 2], [2, 2]]

/-- A 2×2 frame with pixel values 1, 2, 3, 4. -/
def rampFrame : Frame := [[1, 2], [3, 4]]

/-- An empty role dictionary as built by `__init__`. -/
def emptyRole : RoleDict :=
  { data := [], file_name := [], shape := none, oscillation := [],
    data_average := none }

/-- The all-false flag record of a fresh instance. -/
def freshStatus : ExecStatus :=
  { df_correction := false, normalization := false, crop := false,
    oscillation := false, bin := false }

/-- A pipeline that has loaded one uniform 2×2 sample frame and one uniform
2×2 ob frame, and nothing else. -/
def giUniform : GI :=
  { sample := { data := [uniformFrame], file_name := ["s1.tif"],
                shape := some ⟨2, 2⟩, oscillation := [], data_average := none }
    ob := { data := [uniformFrame], file_name := ["ob1.tif"],
            shape := some ⟨2, 2⟩, oscillation := [], data_average := none }
    df := emptyRole
    status := freshStatus }

/-- A fresh, fully empty pipeline. -/
def giEmpty : GI :=
  { sample := emptyRole, ob := emptyRole, df := emptyRole, status := freshStatus }

/-- Like `giUniform` but with the 1,2,3,4 frame. -/
def giRamp : GI :=
  { sample := { data := [rampFrame], file_name := ["s1.tif"],
                shape := some ⟨2, 2⟩, oscillation := [], data_average := none }
    ob := { data := [rampFrame], file_name := ["ob1.tif"],
            shape := some ⟨2, 2⟩, oscillation := [], data_average := none }
    df := emptyRole
    status := freshStatus }

/-- An ROI lying outside any 2×2 frame. -/
def roiBig : ROI := ⟨0, 0, 5, 5⟩

/-- A reduction whose amplitude is identically zero and whose offset is 1
(what the harmonic fit produces on a constant stack), over one pixel. -/
def reductionConst : Reduction (Fin 1) :=
  { offset := fun _ => some 1, amplitude := fun _ => some 0,
    phase := fun _ => some 0 }

/-- A one-pixel reduction with nonzero finite offset, amplitude and phase. -/
noncomputable def reductionW : Reduction (Fin 1) :=
  { offset := fun _ => some 2, amplitude := fun _ => some 3,
    phase := fun _ => some 5 }

/-- A small in-bounds ROI. -/
def roiSmall : ROI := ⟨0, 0, 1, 1⟩

/-- A 4×2 frame (4 rows, 2 columns) of zeros. -/
def f4 : Frame := [[0, 0], [0, 0], [0, 0], [0, 0]]

/-- A pipeline holding one 4×2 sample frame and one 4×2 ob frame. -/
def giTall : GI :=
  { sample := { data := [f4], file_name := ["s1.tif"],
                shape := some ⟨2, 4⟩, oscillation := [], data_average := none }
    ob := { data := [f4], file_name := ["ob1.tif"],
            shape := some ⟨2, 4⟩, oscillation := [], data_average := none }
    df := emptyRole
    status := freshStatus }

/-- An empty pipeline whose normalization flag is set. -/
def giFlagged : GI :=
  { sample := emptyRole, ob := emptyRole, df := emptyRole,
    status := { freshStatus with normalization := true } }

/-- An empty pipeline whose bin flag is set. -/
def giBinned : GI :=
  { sample := emptyRole, ob := emptyRole, df := emptyRole,
    status := { freshStatus with bin := true } }

/-! ## Claim theorems -/

/-- C1 (counterexample): on a pipeline holding one uniform 2×2 sample frame
and one uniform 2×2 ob frame of value 2, `normalization` with no ROI
succeeds but leaves every frame at value 2 instead of dividing it by its
whole-frame mean: the result is not the all-ones frame the claim requires. -/
theorem c1_counterexample :
    (normalization giUniform none false).2 = .ok () ∧
    (normalization giUniform none false).1.sample.data = [uniformFrame] ∧
    (normalization giUniform none false).1.ob.data = [uniformFrame] ∧
    uniformFrame ≠ [[1, 1], [1, 1]] :=
  ⟨rfl, rfl, rfl, by decide⟩

/-- C1 (amended): with no ROI, `normalization` performs no division at all:
for every pipeline state and every `force` flag the sample and ob frame
lists after the call are exactly what they were before (the source's no-ROI
branch assigns shallow copies of the existing lists; only the ROI branch
divides each frame by its own ROI mean). -/
theorem c1_no_roi_normalization_keeps_data (gi : GI) (force : Bool) :
    (normalization gi none force).1.sample.data = gi.sample.data ∧
    (normalization gi none force).1.ob.data = gi.ob.data := by
  refine ⟨?_, ?_⟩ <;> (unfold normalization; dsimp only; split_ifs <;> rfl)

/-- C2 (counterexample): `normalization` on a fresh empty pipeline raises
MissingData but has already set its run flag, so the state is not what it
was before the call; and `load_file` of a 1×1 frame into a role whose stored
shape is 2×2 raises ShapeMismatch yet retains the mismatched frame and its
name in the role's lists. -/
theorem c2_counterexample :
    (normalization giEmpty none false).2 = .error .MissingData ∧
    (normalization giEmpty none false).1.status.normalization = true ∧
    giEmpty.status.normalization = false ∧
    (load_file giUniform "bad.tif" [[1]] .sample).2 = .error .ShapeMismatch ∧
    (load_file giUniform "bad.tif" [[1]] .sample).1.sample.data =
      [uniformFrame, [[1]]] ∧
    (load_file giUniform "bad.tif" [[1]] .sample).1.sample.file_name =
      ["s1.tif", "bad.tif"] :=
  ⟨rfl, rfl, rfl, rfl, rfl, rfl⟩

/-- C3 (counterexample): `oscillation` runs (it stores the per-frame means)
but a subsequent `load` still succeeds, because `oscillation` never sets its
entry of `__exec_process_status`; the claim that load fails after any of the
five stages is therefore false for oscillation. -/
theorem c3_counterexample :
    (oscillation giUniform none).sample.oscillation = [frameMean uniformFrame] ∧
    frameMean uniformFrame = 2 ∧
    (oscillation giUniform none).status.oscillation = false ∧
    (load (oscillation giUniform none) "s2.tif" uniformFrame .sample).2 =
      .ok () :=
  ⟨rfl, by norm_num [frameMean, uniformFrame], rfl, rfl⟩

/-- C5 (counterexample): `crop` with the ROI (0,0,5,5), which lies outside
the 2×2 sample frames (`__roi_fit_into_sample` rejects it), does not raise
InvalidROI: it succeeds, the slices clamping to the whole frame. -/
theorem c5_counterexample :
    roi_fit_into_sample giUniform roiBig = false ∧
    (crop giUniform (some roiBig) false).2 = .ok () ∧
    (crop giUniform (some roiBig) false).1.sample.data = [uniformFrame] :=
  ⟨rfl, rfl, rfl⟩

/-- C6 (counterexample): `binning` with the non-integer bin size 5/2 does
not raise InvalidArgument: `np.int` truncates it to 2 and the 2×2 frames are
rebinned to the 1×1 block-mean frame, modifying the data. -/
theorem c6_counterexample :
    (binning giRamp (some (5 / 2 : ℚ)) false).2 = .ok () ∧
    (binning giRamp (some (5 / 2 : ℚ)) false).1.sample.data = [[[5 / 2]]] ∧
    giRamp.sample.data ≠ [[[5 / 2]]] := by
  have hb : pyTrunc (5 / 2 : ℚ) = 2 := by norm_num [pyTrunc]
  refine ⟨?_, ?_, ?_⟩
  · simp only [binning, hb]; rfl
  · have hdata : (binning giRamp (some (5 / 2 : ℚ)) false).1.sample.data
        = [binFrame 2 1 1 rampFrame] := by
      simp only [binning, hb]
      rfl
    rw [hdata]
    norm_num [binFrame, rampFrame, List.range_succ]
  · intro h
    have h2 : rampFrame = [[5 / 2]] := by
      simpa [giRamp] using h
    have h3 : (1 : ℚ) = 5 / 2 := by
      simpa [rampFrame] using congrArg (fun l => (l.headD []).headD 0) h2
    norm_num at h3

/-- The df-average caching step never touches the status flags. -/
theorem df_average_cached_status (gi : GI) :
    (df_average_cached gi).1.status = gi.status := by
  rcases h : gi.df.data_average with _ | a <;>
    simp only [df_average_cached, h]

/-- `__df_correction` never touches the status flags. -/
theorem __df_correction_status (gi : GI) (data_type : Role) :
    ((__df_correction gi data_type).1).status = gi.status := by
  unfold __df_correction
  dsimp only
  split_ifs <;>
    first
      | rfl
      | exact df_average_cached_status gi
      | (cases data_type <;> simp_all [setRole, df_average_cached_status])

/-- The second half of `df_correction` never touches the status flags. -/
theorem df_correction_second_status (p : GI × Except Err Unit) :
    (df_correction_second p).1.status = p.1.status := by
  rcases p with ⟨g, e⟩
  cases e
  · rfl
  · dsimp only [df_correction_second]
    split_ifs <;> simp [__df_correction_status]

/-- With `force = false` and the flag already set, `df_correction` returns
immediately, leaving the state untouched. -/
theorem df_correction_skip (gi : GI) (h : gi.status.df_correction = true) :
    df_correction gi false = (gi, .ok ()) := by
  unfold df_correction
  rw [if_pos ⟨rfl, h⟩]

/-- Every `df_correction` call (skipped, failed or completed) leaves the
`df_correction` run flag set. -/
theorem df_correction_flag (gi : GI) (force : Bool) :
    (df_correction gi force).1.status.df_correction = true := by
  unfold df_correction
  dsimp only
  split_ifs with h1 h2
  · exact h1.2
  · rw [df_correction_second_status, __df_correction_status]
  · rw [df_correction_second_status]

/-- `__df_correction` on sample or ob is a complete no-op when no df data is
loaded. -/
theorem __df_correction_df_empty (gi : GI) (data_type : Role)
    (hr : data_type = Role.sample ∨ data_type = Role.ob)
    (h : gi.df.data = []) : __df_correction gi data_type = (gi, .ok ()) := by
  unfold __df_correction
  rw [if_neg (not_not_intro hr), if_pos h]

/-- C8: running `df_correction` and then `df_correction` again with
`force = false` leaves the whole pipeline state — in particular all sample
and ob frame data — exactly as it was after the first call: the first call
always leaves the run flag set (even mid-failure), so the second call hits
the skip branch and returns the state unchanged. -/
theorem c8_df_correction_idempotent_skip (gi : GI) (force : Bool) :
    df_correction (df_correction gi force).1 false =
      ((df_correction gi force).1, .ok ()) :=
  df_correction_skip _ (df_correction_flag gi force)

/-- C10: with an empty df stack, `df_correction` performs no subtraction and
changes nothing but its run flag, which it still sets; a second call without
force is then a silent no-op even though no correction was ever applied. -/
theorem c10_df_flag_set_without_correction (gi : GI)
    (hdf : gi.df.data = []) (hflag : gi.status.df_correction = false) :
    df_correction gi false =
      ({ gi with status := { gi.status with df_correction := true } }, .ok ()) ∧
    (df_correction gi false).1.sample.data = gi.sample.data ∧
    (df_correction gi false).1.ob.data = gi.ob.data ∧
    df_correction (df_correction gi false).1 false =
      ((df_correction gi false).1, .ok ()) := by
  have hstep : df_correction gi false =
      ({ gi with status := { gi.status with df_correction := true } }, .ok ()) := by
    unfold df_correction
    rw [if_neg (by simp [hflag])]
    dsimp only
    have hfirst :
        (if ({ gi with status := { gi.status with df_correction := true } } : GI).sample.data ≠ []
         then __df_correction { gi with status := { gi.status with df_correction := true } } .sample
         else ({ gi with status := { gi.status with df_correction := true } }, .ok ())) =
        ({ gi with status := { gi.status with df_correction := true } }, .ok ()) := by
      split_ifs
      · exact __df_correction_df_empty _ _ (Or.inl rfl) hdf
      · rfl
    rw [hfirst]
    unfold df_correction_second
    dsimp only
    split_ifs
    · exact __df_correction_df_empty _ _ (Or.inr rfl) hdf
    · rfl
  refine ⟨hstep, by rw [hstep], by rw [hstep],
    df_correction_skip _ (df_correction_flag gi false)⟩

/-- `__binning_data` never touches the status flags. -/
theorem __binning_data_status (gi : GI) (data_type : Role) (bin : ℤ) :
    ((__binning_data gi data_type bin).1).status = gi.status := by
  unfold __binning_data
  dsimp only
  split_ifs
  · rfl
  · cases data_type <;> rfl
  · rfl

/-- C2 (amended): the claimed no-partial-mutation discipline does not hold
as stated, but a weaker one does: when `normalization` raises, the state is
the prior state with only the normalization run flag set (frame data,
names, shapes and the df cache untouched); `load_file` appends the frame
and its name before the shape check, so on ShapeMismatch the mismatched
frame and name are retained; when `binning` raises MissingData its run flag
has likewise already been set, everything else untouched. -/
theorem c2_mutation_before_validation :
    (∀ (gi : GI) (roi : Option ROI) (force : Bool) (e : Err),
        (normalization gi roi force).2 = .error e →
        (normalization gi roi force).1 =
          { gi with status := { gi.status with normalization := true } }) ∧
    (∀ (gi : GI) (file : String) (data : Frame) (data_type : Role),
        (getRole (load_file gi file data data_type).1 data_type).data =
          (getRole gi data_type).data ++ [data] ∧
        (getRole (load_file gi file data data_type).1 data_type).file_name =
          (getRole gi data_type).file_name ++ [file]) ∧
    (∀ (gi : GI) (q : ℚ) (force : Bool),
        gi.sample.data = [] →
        ¬(force = false ∧ gi.status.bin = true) →
        binning gi (some q) force =
          ({ gi with status := { gi.status with bin := true } },
            .error .MissingData)) := by
  refine ⟨?_, ?_, ?_⟩
  · intro gi roi force e h
    cases roi <;>
      (unfold normalization at h ⊢; dsimp only at h ⊢;
       split_ifs at h ⊢ <;> rfl)
  · intro gi file data data_type
    cases data_type <;>
      (refine ⟨?_, ?_⟩ <;>
        (dsimp only [load_file, save_or_check_shape, getRole, setRole];
         split <;> first | rfl | (split_ifs <;> rfl)))
  · intro gi q force h1 h2
    unfold binning
    dsimp only
    rw [if_neg h2, if_pos h1]

/-- C3 (amended): `load` is blocked (OperationNotAllowed) whenever any of
the df_correction / normalization / crop / bin run flags is set, and each of
those four stages leaves its flag set whenever it returns successfully — but
`oscillation` sets no flag, so it does not block a later `load`. -/
theorem c3_load_blocked_by_four_stages :
    (∀ (gi : GI) (file : String) (data : Frame) (data_type : Role),
        (gi.status.df_correction = true ∨ gi.status.normalization = true ∨
         gi.status.crop = true ∨ gi.status.bin = true) →
        load gi file data data_type = (gi, .error .OperationNotAllowed)) ∧
    (∀ (gi : GI) (force : Bool),
        (df_correction gi force).2 = .ok () →
        (df_correction gi force).1.status.df_correction = true) ∧
    (∀ (gi : GI) (roi : Option ROI) (force : Bool),
        (normalization gi roi force).2 = .ok () →
        (normalization gi roi force).1.status.normalization = true) ∧
    (∀ (gi : GI) (roi : Option ROI) (force : Bool),
        (crop gi roi force).2 = .ok () →
        (crop gi roi force).1.status.crop = true) ∧
    (∀ (gi : GI) (b : Option ℚ) (force : Bool),
        (binning gi b force).2 = .ok () →
        (binning gi b force).1.status.bin = true) := by
  refine ⟨?_, ?_, ?_, ?_, ?_⟩
  · intro gi file data data_type h
    unfold load
    rw [if_pos (by tauto)]
  · intro gi force _
    exact df_correction_flag gi force
  · intro gi roi force h
    cases roi <;>
      (unfold normalization at h ⊢; dsimp only at h ⊢;
       split_ifs at h ⊢ <;>
         first | rfl | exact Except.noConfusion h | simp_all)
  · intro gi roi force h
    cases roi <;>
      (unfold crop at h ⊢; dsimp only at h ⊢;
       split_ifs at h ⊢ <;>
         first | rfl | exact Except.noConfusion h | simp_all)
  · intro gi b force h
    cases b with
    | none => exact Except.noConfusion h
    | some q =>
        unfold binning at h ⊢
        dsimp only at h ⊢
        split_ifs at h ⊢ with h1
        · exact h1.2
        · rcases hb : __binning_data
              { gi with status := { gi.status with bin := true } } .sample
              (pyTrunc q) with ⟨gi2, e2⟩
          have h2st := __binning_data_status
            { gi with status := { gi.status with bin := true } } .sample
            (pyTrunc q)
          rw [hb] at h h2st
          cases e2
          · exact Except.noConfusion h
          · dsimp only at h h2st ⊢
            rw [__binning_data_status, h2st]

/-- C5 (amended): only `normalization` validates ROI bounds (failing with
InvalidROI when `__roi_fit_into_sample` rejects the ROI); `crop` and
`oscillation` merely type-check the ROI and proceed even when its bounds
exceed the frame dimensions, the slices clamping silently. -/
theorem c5_roi_validation_only_in_normalization :
    (∀ (gi : GI) (r : ROI),
        gi.sample.data ≠ [] → gi.ob.data ≠ [] →
        gi.sample.file_name.length = gi.ob.file_name.length →
        data_loaded_have_matching_shape gi = true →
        roi_fit_into_sample gi r = false →
        normalization gi (some r) true =
          ({ gi with status := { gi.status with normalization := true } },
            .error .InvalidROI)) ∧
    (∀ (gi : GI) (r : ROI) (force : Bool),
        gi.sample.data ≠ [] → gi.ob.data ≠ [] →
        (crop gi (some r) force).2 = .ok ()) ∧
    (∀ (gi : GI) (r : ROI),
        (oscillation gi (some r)).sample.data = gi.sample.data ∧
        (oscillation gi (some r)).ob.data = gi.ob.data) := by
  refine ⟨?_, ?_, ?_⟩
  · intro gi r h1 h2 h3 h4 h5
    unfold normalization
    dsimp only
    rw [if_neg (by simp), if_neg h1, if_neg h2, if_neg (by simp [h3]),
      if_neg (by simp [show data_loaded_have_matching_shape
        { gi with status := { gi.status with normalization := true } } =
          data_loaded_have_matching_shape gi from rfl, h4]),
      if_pos (show roi_fit_into_sample
        { gi with status := { gi.status with normalization := true } } r = false
        from h5)]
  · intro gi r force h1 h2
    unfold crop
    dsimp only
    rw [if_neg (by simp [h1, h2])]
    split_ifs <;> rfl
  · intro gi r
    exact ⟨rfl, rfl⟩

/-- Length of a Python slice with in-range non-negative bounds. -/
theorem pySlice_length {α : Type} (lo hi : ℤ) (l : List α)
    (h0 : 0 ≤ lo) (h1 : lo ≤ hi) (h2 : hi ≤ (l.length : ℤ)) :
    ((pySlice lo hi l).length : ℤ) = hi - lo := by
  simp only [pySlice, sliceBound, List.length_drop, List.length_take]
  split_ifs <;> omega

/-- `__binning_data` never touches the stored shape records. -/
theorem __binning_data_shapes (gi : GI) (data_type : Role) (bin : ℤ) :
    ((__binning_data gi data_type bin).1).sample.shape = gi.sample.shape ∧
    ((__binning_data gi data_type bin).1).ob.shape = gi.ob.shape := by
  unfold __binning_data
  dsimp only
  split_ifs
  · exact ⟨rfl, rfl⟩
  · cases data_type <;> exact ⟨rfl, rfl⟩
  · exact ⟨rfl, rfl⟩

/-- For a positive bin and a stack passing the reshape size check,
`__binning_data` succeeds. -/
theorem __binning_data_pos_ok (gi : GI) (data_type : Role) (bin : ℤ)
    (h : 0 < bin)
    (hsz : binShapesOk (getRole gi data_type).data bin.toNat = true) :
    ∃ gi2, __binning_data gi data_type bin = (gi2, .ok ()) := by
  unfold __binning_data
  rw [if_neg (by omega)]
  dsimp only
  rw [if_pos hsz]
  exact ⟨_, rfl⟩

/-- Rebinning the sample role leaves the ob frame data untouched. -/
theorem __binning_data_sample_keeps_ob (gi : GI) (bin : ℤ) :
    ((__binning_data gi .sample bin).1).ob.data = gi.ob.data := by
  unfold __binning_data
  dsimp only
  split_ifs <;> rfl

/-- For a non-positive bin, `__binning_data` crashes leaving the state
untouched. -/
theorem __binning_data_nonpos (gi : GI) (data_type : Role) (bin : ℤ)
    (h : bin ≤ 0) :
    __binning_data gi data_type bin = (gi, .error .RuntimeCrash) := by
  unfold __binning_data
  rw [if_pos h]

/-- C9: neither `crop` nor `binning` updates the stored shape record: the
`shape` entries of the sample and ob dictionaries survive both stages
unchanged, while a strictly-smaller in-bounds crop shrinks the frames, so
the stored Shape (recorded at load time) no longer matches the frames. -/
theorem c9_crop_binning_leave_shape_record_stale :
    (∀ (gi : GI) (roi : Option ROI) (force : Bool),
        (crop gi roi force).1.sample.shape = gi.sample.shape ∧
        (crop gi roi force).1.ob.shape = gi.ob.shape) ∧
    (∀ (gi : GI) (b : Option ℚ) (force : Bool),
        (binning gi b force).1.sample.shape = gi.sample.shape ∧
        (binning gi b force).1.ob.shape = gi.ob.shape) ∧
    (∀ (gi : GI) (r : ROI) (f : Frame) (rest : List Frame) (s : Shape),
        gi.sample.data = f :: rest → gi.ob.data ≠ [] →
        gi.sample.shape = some s → s.height = f.length →
        0 ≤ r.y0 → r.y0 ≤ r.y1 → r.y1 + 1 < (f.length : ℤ) →
        (crop gi (some r) true).1.sample.shape = some s ∧
        ((crop gi (some r) true).1.sample.data.headD []).length ≠ s.height) := by
  refine ⟨?_, ?_, ?_⟩
  · intro gi roi force
    cases roi <;>
      (refine ⟨?_, ?_⟩ <;> (unfold crop; dsimp only; split_ifs <;> rfl))
  · intro gi b force
    cases b with
    | none => exact ⟨rfl, rfl⟩
    | some q =>
        unfold binning
        dsimp only
        split_ifs
        · exact ⟨rfl, rfl⟩
        · exact ⟨rfl, rfl⟩
        · exact ⟨rfl, rfl⟩
        · rcases hb : __binning_data
              { gi with status := { gi.status with bin := true } } .sample
              (pyTrunc q) with ⟨gi2, e2⟩
          have hsh := __binning_data_shapes
            { gi with status := { gi.status with bin := true } } .sample
            (pyTrunc q)
          rw [hb] at hsh
          cases e2
          · exact hsh
          · have hsh2 := __binning_data_shapes gi2 .ob (pyTrunc q)
            exact ⟨hsh2.1.trans hsh.1, hsh2.2.trans hsh.2⟩
  · intro gi r f rest s hdata hob hshape hheight hy0 hy01 hy1
    have hcrop : (crop gi (some r) true).1.sample.data =
        (f :: rest).map (cropFrame r) ∧
        (crop gi (some r) true).1.sample.shape = gi.sample.shape := by
      unfold crop
      dsimp only
      rw [if_neg (by simp [hdata, hob]), if_neg (by simp)]
      exact ⟨by dsimp only; rw [hdata], rfl⟩
    refine ⟨by rw [hcrop.2, hshape], ?_⟩
    have hhead : (crop gi (some r) true).1.sample.data.headD [] = cropFrame r f := by
      rw [hcrop.1]
      rfl
    rw [hhead]
    have hlen : ((cropFrame r f).length : ℤ) = r.y1 + 1 - r.y0 := by
      unfold cropFrame
      rw [List.length_map]
      exact pySlice_length _ _ _ hy0 (by omega) (by omega)
    intro hEq
    rw [hheight] at hEq
    omega

/-- C6 (amended): `binning` raises InvalidArgument only for the NaN default
bin; a finite non-integer bin such as 5/2 is silently truncated toward zero
by `np.int` and, when the truncation is positive, data is loaded, and every
sample and ob frame passes the reshape size check inherited from the first
frame, binning proceeds and modifies the data; a bin that truncates to zero
or below passes the argument validation (the flag gets set) and only fails
later inside the binning computation, with the frame data left unmodified. -/
theorem c6_binning_argument_validation :
    (∀ (gi : GI) (force : Bool),
        binning gi none force = (gi, .error .InvalidArgument)) ∧
    pyTrunc (5 / 2 : ℚ) = 2 ∧
    (∀ (gi : GI) (q : ℚ) (force : Bool),
        1 ≤ pyTrunc q →
        gi.sample.data ≠ [] → gi.ob.data ≠ [] →
        binShapesOk gi.sample.data (pyTrunc q).toNat = true →
        binShapesOk gi.ob.data (pyTrunc q).toNat = true →
        (binning gi (some q) force).2 = .ok ()) ∧
    (∀ (gi : GI) (q : ℚ),
        pyTrunc q ≤ 0 →
        gi.sample.data ≠ [] → gi.ob.data ≠ [] →
        (binning gi (some q) true).2 = .error .RuntimeCrash ∧
        (binning gi (some q) true).1.sample.data = gi.sample.data ∧
        (binning gi (some q) true).1.ob.data = gi.ob.data) := by
  refine ⟨?_, ?_, ?_, ?_⟩
  · intro gi force
    rfl
  · norm_num [pyTrunc]
  · intro gi q force hq hs ho hsz1 hsz2
    unfold binning
    dsimp only
    split_ifs with hskip
    · rfl
    · obtain ⟨gi2, hb⟩ := __binning_data_pos_ok
        { gi with status := { gi.status with bin := true } } .sample
        (pyTrunc q) (by omega) hsz1
      have hob := __binning_data_sample_keeps_ob
        { gi with status := { gi.status with bin := true } } (pyTrunc q)
      rw [hb] at hob
      have hsz2a : binShapesOk (getRole gi2 .ob).data (pyTrunc q).toNat = true := by
        show binShapesOk gi2.ob.data (pyTrunc q).toNat = true
        rw [hob]
        exact hsz2
      rw [hb]
      dsimp only
      obtain ⟨gi3, hb2⟩ := __binning_data_pos_ok gi2 .ob (pyTrunc q)
        (by omega) hsz2a
      rw [hb2]
  · intro gi q hq hs ho
    have hrun : binning gi (some q) true =
        ({ gi with status := { gi.status with bin := true } },
          .error .RuntimeCrash) := by
      unfold binning
      dsimp only
      rw [if_neg (by simp), if_neg hs, if_neg ho,
        __binning_data_nonpos _ _ _ hq]
    exact ⟨by rw [hrun], by rw [hrun], by rw [hrun]⟩

/-- `divN` by a NaN divisor is NaN. -/
theorem divN_none_right (x : Option ℝ) : divN x none = none := by
  cases x <;> rfl

/-- `divN` of two finite values. -/
theorem divN_some_some (a b : ℝ) :
    divN (some a) (some b) = if b = 0 then none else some (a / b) := rfl

/-- `arctanN` of NaN is NaN. -/
theorem arctanN_none : arctanN none = none := rfl

/-- `arctanN` of a finite value. -/
theorem arctanN_some (a : ℝ) : arctanN (some a) = some (Real.arctan a) := rfl

/-- C4: the harmonic reduction works exactly as claimed: the design matrix
row `i` is `{1, cos(2π·i·number_periods/(N-1)), sin(2π·i·number_periods/(N-1))}`,
the coefficients come from the normal-equation solve `G = (BᵀB)⁻¹Bᵀ`
applied to the reshaped data, amplitude is `sqrt(cos_coef² + sin_coef²)`
(computed from the raw coefficients, before any replacement), and phase is
not-a-number exactly at pixels whose cosine coefficient is 0 — the 0 being
replaced by NaN before the division rather than raising a division error —
and `arctan(sin_coef / cos_coef)` elsewhere. -/
theorem c4_reduction_matches_claim (N H W : ℕ) (hN : 3 ≤ N)
    (data : Fin N → Fin H → Fin W → ℝ) (number_periods : ℝ) :
    reduction_B N number_periods = claimed_B N number_periods ∧
    reduction_A number_periods data =
      (((reduction_B N number_periods)ᵀ * reduction_B N number_periods)⁻¹ *
        (reduction_B N number_periods)ᵀ) * data_reshaped data ∧
    _create_reduction_matrix N H W data number_periods =
      claimed_reduction N H W data number_periods := by
  refine ⟨?_, rfl, ?_⟩
  · funext i j
    fin_cases j <;> rfl
  · unfold _create_reduction_matrix claimed_reduction
    dsimp only
    congr 1
    funext h w
    by_cases hc : reduction_A number_periods data 1 (h, w) = 0
    · simp [hc, divN_none_right, arctanN_none]
    · simp [hc, divN_some_some, arctanN_some]

/-- C4 (witness): the reduction equals its claimed form at N = 3 on the
zero one-pixel stack with one period. -/
theorem c4_reduction_matches_claim_witness :
    reduction_B 3 1 = claimed_B 3 1 ∧
    reduction_A 1 (fun _ _ _ => (0 : ℝ) : Fin 3 → Fin 1 → Fin 1 → ℝ) =
      (((reduction_B 3 1)ᵀ * reduction_B 3 1)⁻¹ * (reduction_B 3 1)ᵀ) *
        data_reshaped (fun _ _ _ => (0 : ℝ) : Fin 3 → Fin 1 → Fin 1 → ℝ) ∧
    _create_reduction_matrix 3 1 1 (fun _ _ _ => (0 : ℝ)) 1 =
      claimed_reduction 3 1 1 (fun _ _ _ => (0 : ℝ)) 1 :=
  c4_reduction_matches_claim 3 1 1 (by decide) (fun _ _ _ => (0 : ℝ)) 1

/-- C7 (counterexample): for the identical, everywhere-finite reductions
with offset 1, amplitude 0 and phase 0 (what the harmonic fit yields on a
constant stack), the ob offset is nonzero at the only pixel, yet dark_field
there is NaN — the float 0/0 — and not 1 as the claim requires. -/
theorem c7_counterexample :
    reductionConst.offset 0 = some 1 ∧
    some (1 : ℝ) ≠ some (0 : ℝ) ∧
    (create_interferometry_images reductionConst reductionConst).dark_field 0 =
      none ∧
    (none : Option ℝ) ≠ some 1 := by
  refine ⟨rfl, by norm_num, ?_, by simp⟩
  show divN (divN (some 0) (remove_inf_null (some 1)))
      (divN (some 0) (remove_inf_null (some 1))) = none
  norm_num [remove_inf_null, divN_some_some]

/-- C7 (amended): with identical, everywhere-finite sample and ob
reductions, transmission is 1 and diff_phase_contrast is 0 at every pixel
where ob.offset is nonzero; dark_field is 1 at every pixel where
additionally ob.amplitude is nonzero (where the amplitude is zero it is
0/0, i.e. NaN, as in the counterexample). -/
theorem c7_identical_reductions {P : Type} (off amp ph : P → ℝ) (p : P)
    (hoff : off p ≠ 0) (hamp : amp p ≠ 0) :
    (create_interferometry_images
      ⟨fun q => some (off q), fun q => some (amp q), fun q => some (ph q)⟩
      ⟨fun q => some (off q), fun q => some (amp q), fun q => some (ph q)⟩).transmission p
        = some 1 ∧
    (create_interferometry_images
      ⟨fun q => some (off q), fun q => some (amp q), fun q => some (ph q)⟩
      ⟨fun q => some (off q), fun q => some (amp q), fun q => some (ph q)⟩).diff_phase_contrast p
        = some 0 ∧
    (create_interferometry_images
      ⟨fun q => some (off q), fun q => some (amp q), fun q => some (ph q)⟩
      ⟨fun q => some (off q), fun q => some (amp q), fun q => some (ph q)⟩).dark_field p
        = some 1 := by
  refine ⟨?_, ?_, ?_⟩
  · show divN (remove_inf_null (some (off p))) (remove_inf_null (some (off p)))
        = some 1
    simp [remove_inf_null, divN_some_some, hoff, div_self hoff]
  · show arctanN (tanN (subN (some (ph p)) (some (ph p)))) = some 0
    simp [subN, tanN, arctanN, sub_self, Real.tan_zero, Real.arctan_zero]
  · show divN (divN (some (amp p)) (remove_inf_null (some (off p))))
        (divN (some (amp p)) (remove_inf_null (some (off p)))) = some 1
    simp [remove_inf_null, divN_some_some, hoff, div_ne_zero hamp hoff,
      div_self (div_ne_zero hamp hoff)]

/-- C7 (witness): the amended statement at the concrete one-pixel reduction
with offset 2, amplitude 3, phase 5. -/
theorem c7_identical_reductions_witness :
    (create_interferometry_images reductionW reductionW).transmission 0 = some 1 ∧
    (create_interferometry_images reductionW reductionW).diff_phase_contrast 0 = some 0 ∧
    (create_interferometry_images reductionW reductionW).dark_field 0 = some 1 :=
  c7_identical_reductions (fun _ => 2) (fun _ => 3) (fun _ => 5) 0
    (by norm_num) (by norm_num)

/-- C2 (witness): the amended statement at concrete inputs — the failing
normalization on an empty pipeline, a shape-mismatched load_file, and a
binning on an empty pipeline. -/
theorem c2_mutation_before_validation_witness :
    (normalization giEmpty none false).1 =
      { giEmpty with status := { giEmpty.status with normalization := true } } ∧
    ((getRole (load_file giUniform "bad.tif" [[1]] .sample).1 .sample).data =
       (getRole giUniform .sample).data ++ [[[1]]] ∧
     (getRole (load_file giUniform "bad.tif" [[1]] .sample).1 .sample).file_name =
       (getRole giUniform .sample).file_name ++ ["bad.tif"]) ∧
    binning giEmpty (some 1) false =
      ({ giEmpty with status := { giEmpty.status with bin := true } },
        .error .MissingData) :=
  ⟨c2_mutation_before_validation.1 giEmpty none false .MissingData rfl,
   c2_mutation_before_validation.2.1 giUniform "bad.tif" [[1]] .sample,
   c2_mutation_before_validation.2.2 giEmpty 1 false rfl (by decide)⟩

/-- C3 (witness): the amended statement at concrete inputs — load blocked on
a flagged pipeline, and each of the four stages leaving its flag set after
a successful call. -/
theorem c3_load_blocked_witness :
    load giFlagged "s.tif" uniformFrame .sample =
      (giFlagged, .error .OperationNotAllowed) ∧
    (df_correction giUniform false).1.status.df_correction = true ∧
    (normalization giUniform none false).1.status.normalization = true ∧
    (crop giUniform (some roiSmall) false).1.status.crop = true ∧
    (binning giBinned (some 1) false).1.status.bin = true :=
  ⟨c3_load_blocked_by_four_stages.1 giFlagged "s.tif" uniformFrame .sample
     (Or.inr (Or.inl rfl)),
   c3_load_blocked_by_four_stages.2.1 giUniform false rfl,
   c3_load_blocked_by_four_stages.2.2.1 giUniform none false rfl,
   c3_load_blocked_by_four_stages.2.2.2.1 giUniform (some roiSmall) false rfl,
   c3_load_blocked_by_four_stages.2.2.2.2 giBinned (some 1) false rfl⟩

/-- C5 (witness): the amended statement at concrete inputs — normalization
rejecting the out-of-bounds ROI, crop and oscillation accepting it. -/
theorem c5_roi_validation_witness :
    normalization giUniform (some roiBig) true =
      ({ giUniform with status := { giUniform.status with normalization := true } },
        .error .InvalidROI) ∧
    (crop giUniform (some roiBig) false).2 = .ok () ∧
    ((oscillation giUniform (some roiBig)).sample.data = giUniform.sample.data ∧
     (oscillation giUniform (some roiBig)).ob.data = giUniform.ob.data) :=
  ⟨c5_roi_validation_only_in_normalization.1 giUniform roiBig (by decide)
     (by decide) rfl rfl rfl,
   c5_roi_validation_only_in_normalization.2.1 giUniform roiBig false
     (by decide) (by decide),
   c5_roi_validation_only_in_normalization.2.2 giUniform roiBig⟩

/-- C6 (witness): the amended statement at concrete inputs — NaN rejected,
5/2 truncated to 2 and accepted, 0 passing validation and crashing in the
computation with the data unmodified. -/
theorem c6_binning_argument_validation_witness :
    binning giEmpty none false = (giEmpty, .error .InvalidArgument) ∧
    pyTrunc (5 / 2 : ℚ) = 2 ∧
    (binning giRamp (some (5 / 2 : ℚ)) false).2 = .ok () ∧
    ((binning giRamp (some 0) true).2 = .error .RuntimeCrash ∧
     (binning giRamp (some 0) true).1.sample.data = giRamp.sample.data ∧
     (binning giRamp (some 0) true).1.ob.data = giRamp.ob.data) :=
  ⟨c6_binning_argument_validation.1 giEmpty false,
   c6_binning_argument_validation.2.1,
   c6_binning_argument_validation.2.2.1 giRamp (5 / 2 : ℚ) false
     (by norm_num [pyTrunc]) (by decide) (by decide)
     (by rw [show pyTrunc (5 / 2 : ℚ) = 2 from by norm_num [pyTrunc]]
         decide)
     (by rw [show pyTrunc (5 / 2 : ℚ) = 2 from by norm_num [pyTrunc]]
         decide),
   c6_binning_argument_validation.2.2.2 giRamp 0 (by norm_num [pyTrunc])
     (by decide) (by decide)⟩

/-- C9 (witness): the statement at concrete inputs — shape records preserved
by crop and binning, and a proper sub-ROI crop leaving the 4×2 stored shape
stale against the shrunken frames. -/
theorem c9_shape_record_stale_witness :
    ((crop giUniform (some roiSmall) false).1.sample.shape =
       giUniform.sample.shape ∧
     (crop giUniform (some roiSmall) false).1.ob.shape = giUniform.ob.shape) ∧
    ((binning giUniform none false).1.sample.shape = giUniform.sample.shape ∧
     (binning giUniform none false).1.ob.shape = giUniform.ob.shape) ∧
    ((crop giTall (some roiSmall) true).1.sample.shape = some ⟨2, 4⟩ ∧
     ((crop giTall (some roiSmall) true).1.sample.data.headD []).length ≠
       (⟨2, 4⟩ : Shape).height) :=
  ⟨c9_crop_binning_leave_shape_record_stale.1 giUniform (some roiSmall) false,
   c9_crop_binning_leave_shape_record_stale.2.1 giUniform none false,
   c9_crop_binning_leave_shape_record_stale.2.2 giTall roiSmall f4 [] ⟨2, 4⟩
     rfl (by decide) rfl rfl (by decide) (by decide) (by decide)⟩

/-- C10 (witness): the statement at the pipeline that has loaded sample and
ob data but no df data. -/
theorem c10_df_flag_witness :
    df_correction giUniform false =
      ({ giUniform with status := { giUniform.status with df_correction := true } },
        .ok ()) ∧
    (df_correction giUniform false).1.sample.data = giUniform.sample.data ∧
    (df_correction giUniform false).1.ob.data = giUniform.ob.data ∧
    df_correction (df_correction giUniform false).1 false =
      ((df_correction giUniform false).1, .ok ()) :=
  c10_df_flag_set_without_correction giUniform rfl rfl

end TaPy
